import Mathlib

/-
  Verification development for the Fraud Risk Intelligence System
  (backend/main.py): a shallow embedding of the risk-decision policy,
  the persistence lifecycle, the dashboard aggregator, the synthetic
  transaction generator and the background simulation loop, together
  with proofs of the behavioural claims about them.

  Modelling conventions:
  * Python floats are modelled as rationals (ℚ); the threshold literals
    0.75 and 0.40 become 3/4 and 2/5.
  * The MongoDB collection is modelled as a list of records;
    insert_one appends, find({},{_id:0}) returns the list in insertion
    order, count_documents(filter) counts matching records.
  * The opaque classifier (model.predict_proba) is passed in as an
    Except value: Except.ok p is a successful invocation returning the
    positive-class probability p, Except.error is a raised exception
    (ScoringError).  model.feature_importances_ is passed in as a list
    of weights.
  * random.uniform(a, b) is CPython's a + (b-a)*random(), where
    random() draws from [0, 1); the draws are passed in explicitly.
  * datetime.utcnow() is passed in as an abstract timestamp.
-/

namespace FraudRisk

/-- Field names of the request schema TransactionInput, in declaration
order (pydantic .dict() preserves this order). -/
def fieldNames : List String :=
  ["Time", "V1", "V2", "V3", "V4", "V5", "V6", "V7", "V8", "V9",
   "V10", "V11", "V12", "V13", "V14", "V15", "V16", "V17", "V18", "V19",
   "V20", "V21", "V22", "V23", "V24", "V25", "V26", "V27", "V28", "Amount"]

/-- The request schema: 30 named numeric fields (class TransactionInput). -/
structure TransactionInput where
  Time : ℚ
  V1 : ℚ
  V2 : ℚ
  V3 : ℚ
  V4 : ℚ
  V5 : ℚ
  V6 : ℚ
  V7 : ℚ
  V8 : ℚ
  V9 : ℚ
  V10 : ℚ
  V11 : ℚ
  V12 : ℚ
  V13 : ℚ
  V14 : ℚ
  V15 : ℚ
  V16 : ℚ
  V17 : ℚ
  V18 : ℚ
  V19 : ℚ
  V20 : ℚ
  V21 : ℚ
  V22 : ℚ
  V23 : ℚ
  V24 : ℚ
  V25 : ℚ
  V26 : ℚ
  V27 : ℚ
  V28 : ℚ
  Amount : ℚ
deriving DecidableEq

/-- Exception raised when the classifier invocation fails. -/
structure ScoringError where
  msg : String
deriving DecidableEq

/-- Round-half-to-even on rationals, the tie-breaking rule of Python's
built-in round(). -/
def roundHalfEven (x : ℚ) : ℤ :=
  let f : ℤ := Int.floor x
  let frac : ℚ := x - (f : ℚ)
  if frac < 1/2 then f
  else if 1/2 < frac then f + 1
  else if f % 2 = 0 then f else f + 1

/-- Python's round(x, n): round to n decimal places, ties to even. -/
def pyRound (n : ℕ) (x : ℚ) : ℚ :=
  ((roundHalfEven (x * 10 ^ n) : ℚ)) / 10 ^ n

/-- np.argsort(importances): the indices of the weight list sorted in
ascending order of weight value. -/
def argsort (w : List ℚ) : List ℕ :=
  List.insertionSort (fun i j => w.getD i 0 ≤ w.getD j 0) (List.range w.length)

/-- np.argsort(importances)[-3:], Python slicing: the last three entries
of the ascending argsort, i.e. the indices of the 3 largest weights in
ascending weight order. -/
def topIndices (w : List ℚ) : List ℕ :=
  (argsort w).drop ((argsort w).length - 3)

/-- The list comprehension [feature_names[i] for i in top_indices],
where feature_names comes from transaction.dict().keys() and is the
constant fieldNames list. -/
def topFeatures (w : List ℚ) : List String :=
  (topIndices w).map (fun i => fieldNames.getD i "")

/-- One persisted document of the transactions collection.  The
background path omits the top_risk_indicators key, so the field is an
Option at the schema level. -/
structure TransactionRecord where
  input : TransactionInput
  fraud_probability : ℚ
  risk_level : String
  decision : String
  top_risk_indicators : Option (List String)
  timestamp : ℕ
deriving DecidableEq

/-- The JSON body returned by POST /score-transaction. -/
structure ScoreResponse where
  fraud_probability : ℚ
  risk_level : String
  decision : String
  top_risk_indicators : List String
deriving DecidableEq

/-- The transactions collection, in insertion order. -/
abbrev Store := List TransactionRecord

/-- POST /score-transaction (def score_transaction in main.py).  Takes
the classifier invocation outcome for this request's feature vector,
the classifier's feature_importances_, the current time, and the store;
returns the HTTP outcome and the new store.  On a classifier exception
the request aborts before insert_one, so the store is unchanged. -/
def score_transaction (transaction : TransactionInput)
    (classifierResult : Except ScoringError ℚ) (importances : List ℚ)
    (now : ℕ) (store : Store) : Except ScoringError ScoreResponse × Store :=
  match classifierResult with
  | Except.error e => (Except.error e, store)
  | Except.ok probability =>
    let rd : String × String :=
      if probability > 3/4 then ("High", "Block")
      else if probability > 2/5 then ("Medium", "Review")
      else ("Low", "Approve")
    let top_features := topFeatures importances
    (Except.ok
      { fraud_probability := pyRound 4 probability
        risk_level := rd.1
        decision := rd.2
        top_risk_indicators := top_features },
     store ++ [{ input := transaction
                 fraud_probability := pyRound 4 probability
                 risk_level := rd.1
                 decision := rd.2
                 top_risk_indicators := some top_features
                 timestamp := now }])

/-- GET /transactions: collection.find({}, {_id: 0}) in insertion
order. -/
def get_transactions (store : Store) : List TransactionRecord := store

/-- The JSON body returned by GET /dashboard. -/
structure DashboardSummary where
  total_transactions : ℕ
  high : ℕ
  medium : ℕ
  low : ℕ
  approved : ℕ
  blocked : ℕ
  review : ℕ
  approval_rate_percent : ℚ
deriving DecidableEq

/-- GET /dashboard (def dashboard_summary in main.py): 6 filtered
count_documents queries plus one total count, and the approval rate. -/
def dashboard_summary (store : Store) : DashboardSummary :=
  let total := store.length
  let high := store.countP (fun r => r.risk_level == "High")
  let medium := store.countP (fun r => r.risk_level == "Medium")
  let low := store.countP (fun r => r.risk_level == "Low")
  let approved := store.countP (fun r => r.decision == "Approve")
  let blocked := store.countP (fun r => r.decision == "Block")
  let review := store.countP (fun r => r.decision == "Review")
  let approval_rate : ℚ :=
    if total > 0 then pyRound 2 (((approved : ℚ) / (total : ℚ)) * 100) else 0
  { total_transactions := total
    high := high
    medium := medium
    low := low
    approved := approved
    blocked := blocked
    review := review
    approval_rate_percent := approval_rate }

/-- random.uniform(a, b): a + (b - a) * random(), with random() drawing
from [0, 1). -/
def pyUniform (a b u : ℚ) : ℚ := a + (b - a) * u

/-- def generate_random_transaction in main.py: one random draw per
field, Time from uniform(0, 100000), each Vi from uniform(-5, 5),
Amount from uniform(1, 10000).  The 30 independent draws of random()
are passed in as u. -/
def generate_random_transaction (u : Fin 30 → ℚ) : TransactionInput :=
  { Time := pyUniform 0 100000 (u 0)
    V1 := pyUniform (-5) 5 (u 1)
    V2 := pyUniform (-5) 5 (u 2)
    V3 := pyUniform (-5) 5 (u 3)
    V4 := pyUniform (-5) 5 (u 4)
    V5 := pyUniform (-5) 5 (u 5)
    V6 := pyUniform (-5) 5 (u 6)
    V7 := pyUniform (-5) 5 (u 7)
    V8 := pyUniform (-5) 5 (u 8)
    V9 := pyUniform (-5) 5 (u 9)
    V10 := pyUniform (-5) 5 (u 10)
    V11 := pyUniform (-5) 5 (u 11)
    V12 := pyUniform (-5) 5 (u 12)
    V13 := pyUniform (-5) 5 (u 13)
    V14 := pyUniform (-5) 5 (u 14)
    V15 := pyUniform (-5) 5 (u 15)
    V16 := pyUniform (-5) 5 (u 16)
    V17 := pyUniform (-5) 5 (u 17)
    V18 := pyUniform (-5) 5 (u 18)
    V19 := pyUniform (-5) 5 (u 19)
    V20 := pyUniform (-5) 5 (u 20)
    V21 := pyUniform (-5) 5 (u 21)
    V22 := pyUniform (-5) 5 (u 22)
    V23 := pyUniform (-5) 5 (u 23)
    V24 := pyUniform (-5) 5 (u 24)
    V25 := pyUniform (-5) 5 (u 25)
    V26 := pyUniform (-5) 5 (u 26)
    V27 := pyUniform (-5) 5 (u 27)
    V28 := pyUniform (-5) 5 (u 28)
    Amount := pyUniform 1 10000 (u 29) }

/-- The range constraints the generator's output is claimed to satisfy:
Time in [0, 100000], each Vi in [-5, 5], Amount in [1, 10000]. -/
def inRanges (t : TransactionInput) : Prop :=
  (0 ≤ t.Time ∧ t.Time ≤ 100000) ∧
  (-5 ≤ t.V1 ∧ t.V1 ≤ 5) ∧ (-5 ≤ t.V2 ∧ t.V2 ≤ 5) ∧
  (-5 ≤ t.V3 ∧ t.V3 ≤ 5) ∧ (-5 ≤ t.V4 ∧ t.V4 ≤ 5) ∧
  (-5 ≤ t.V5 ∧ t.V5 ≤ 5) ∧ (-5 ≤ t.V6 ∧ t.V6 ≤ 5) ∧
  (-5 ≤ t.V7 ∧ t.V7 ≤ 5) ∧ (-5 ≤ t.V8 ∧ t.V8 ≤ 5) ∧
  (-5 ≤ t.V9 ∧ t.V9 ≤ 5) ∧ (-5 ≤ t.V10 ∧ t.V10 ≤ 5) ∧
  (-5 ≤ t.V11 ∧ t.V11 ≤ 5) ∧ (-5 ≤ t.V12 ∧ t.V12 ≤ 5) ∧
  (-5 ≤ t.V13 ∧ t.V13 ≤ 5) ∧ (-5 ≤ t.V14 ∧ t.V14 ≤ 5) ∧
  (-5 ≤ t.V15 ∧ t.V15 ≤ 5) ∧ (-5 ≤ t.V16 ∧ t.V16 ≤ 5) ∧
  (-5 ≤ t.V17 ∧ t.V17 ≤ 5) ∧ (-5 ≤ t.V18 ∧ t.V18 ≤ 5) ∧
  (-5 ≤ t.V19 ∧ t.V19 ≤ 5) ∧ (-5 ≤ t.V20 ∧ t.V20 ≤ 5) ∧
  (-5 ≤ t.V21 ∧ t.V21 ≤ 5) ∧ (-5 ≤ t.V22 ∧ t.V22 ≤ 5) ∧
  (-5 ≤ t.V23 ∧ t.V23 ≤ 5) ∧ (-5 ≤ t.V24 ∧ t.V24 ≤ 5) ∧
  (-5 ≤ t.V25 ∧ t.V25 ≤ 5) ∧ (-5 ≤ t.V26 ∧ t.V26 ≤ 5) ∧
  (-5 ≤ t.V27 ∧ t.V27 ≤ 5) ∧ (-5 ≤ t.V28 ∧ t.V28 ≤ 5) ∧
  (1 ≤ t.Amount ∧ t.Amount ≤ 10000)

instance (t : TransactionInput) : Decidable (inRanges t) := by
  unfold inRanges; infer_instance

/-- The body of one successful iteration of auto_generate_transactions
after model.predict_proba returned probability p: bucket, then
insert_one a record WITHOUT the top_risk_indicators key. -/
def auto_iteration (transaction : TransactionInput) (probability : ℚ)
    (now : ℕ) (store : Store) : Store :=
  let rd : String × String :=
    if probability > 3/4 then ("High", "Block")
    else if probability > 2/5 then ("Medium", "Review")
    else ("Low", "Approve")
  store ++ [{ input := transaction
              fraud_probability := pyRound 4 probability
              risk_level := rd.1
              decision := rd.2
              top_risk_indicators := none
              timestamp := now }]

/-- async def auto_generate_transactions, run over a finite prefix of
its iterations.  Each script entry supplies the generated transaction,
the classifier invocation outcome and the current time for one
iteration.  The while-True body has NO exception guard, so a raised
exception propagates out of the coroutine and the task dies: no later
iteration ever runs.  That is the second match arm. -/
def auto_loop : List (TransactionInput × Except ScoringError ℚ × ℕ) → Store → Store
  | [], store => store
  | (_, Except.error _, _) :: _, store => store
  | (tx, Except.ok p, t) :: rest, store => auto_loop rest (auto_iteration tx p t store)

/-- Store states reachable from the empty collection by any sequence of
insertions performed by this system: the /score-transaction path (with
any classifier outcome, including failures) and iterations of the
background simulation loop. -/
inductive Reachable : Store → Prop
  | nil : Reachable []
  | api (tx : TransactionInput) (cr : Except ScoringError ℚ) (w : List ℚ)
      (t : ℕ) (s : Store) :
      Reachable s → Reachable (score_transaction tx cr w t s).2
  | auto (tx : TransactionInput) (p : ℚ) (t : ℕ) (s : Store) :
      Reachable s → Reachable (auto_iteration tx p t s)

/-- The all-zero feature vector, used as a concrete probe input. -/
def txZero : TransactionInput :=
  { Time := 0, V1 := 0, V2 := 0, V3 := 0, V4 := 0, V5 := 0, V6 := 0
    V7 := 0, V8 := 0, V9 := 0, V10 := 0, V11 := 0, V12 := 0, V13 := 0
    V14 := 0, V15 := 0, V16 := 0, V17 := 0, V18 := 0, V19 := 0, V20 := 0
    V21 := 0, V22 := 0, V23 := 0, V24 := 0, V25 := 0, V26 := 0, V27 := 0
    V28 := 0, Amount := 0 }

/-- A concrete importance-weight vector with 30 strictly increasing
weights, used as a probe input. -/
def wExample : List ℚ := (List.range 30).map (fun i => (i : ℚ))

theorem argsort_sorted (w : List ℚ) :
    List.Sorted (fun i j => w.getD i 0 ≤ w.getD j 0) (argsort w) := by
  haveI : IsTotal ℕ (fun i j => w.getD i 0 ≤ w.getD j 0) := ⟨fun a b => le_total _ _⟩
  haveI : IsTrans ℕ (fun i j => w.getD i 0 ≤ w.getD j 0) :=
    ⟨fun a b c h1 h2 => le_trans h1 h2⟩
  exact List.sorted_insertionSort _ _

theorem argsort_perm (w : List ℚ) : (argsort w).Perm (List.range w.length) :=
  List.perm_insertionSort _ _

theorem mem_argsort (w : List ℚ) (j : ℕ) : j ∈ argsort w ↔ j < w.length := by
  rw [(argsort_perm w).mem_iff, List.mem_range]

theorem length_argsort (w : List ℚ) : (argsort w).length = w.length := by
  simpa using (argsort_perm w).length_eq

theorem length_topIndices (w : List ℚ) (hw : w.length = 30) :
    (topIndices w).length = 3 := by
  unfold topIndices
  rw [List.length_drop, length_argsort, hw]

theorem mem_topIndices_lt (w : List ℚ) {i : ℕ} (hi : i ∈ topIndices w) :
    i < w.length :=
  (mem_argsort w i).mp (List.drop_subset _ _ hi)

theorem sorted_topWeights (w : List ℚ) :
    List.Sorted (· ≤ ·) ((topIndices w).map (fun i => w.getD i 0)) := by
  have h1 : List.Pairwise (fun i j => w.getD i 0 ≤ w.getD j 0) (topIndices w) :=
    List.Pairwise.sublist (List.drop_sublist _ _) (argsort_sorted w)
  exact List.pairwise_map.mpr h1

theorem topIndices_dominant (w : List ℚ) :
    ∀ i ∈ topIndices w, ∀ j, j < w.length → j ∉ topIndices w →
      w.getD j 0 ≤ w.getD i 0 := by
  intro i hi j hj hj2
  have hsorted : List.Pairwise (fun a b => w.getD a 0 ≤ w.getD b 0)
      (List.take ((argsort w).length - 3) (argsort w)
        ++ List.drop ((argsort w).length - 3) (argsort w)) := by
    rw [List.take_append_drop]
    exact argsort_sorted w
  obtain ⟨-, -, hcross⟩ := List.pairwise_append.mp hsorted
  have hjmem : j ∈ argsort w := (mem_argsort w j).mpr hj
  rw [← List.take_append_drop ((argsort w).length - 3) (argsort w)] at hjmem
  rcases List.mem_append.mp hjmem with hcase | hcase
  · exact hcross j hcase i hi
  · exact absurd hcase hj2

theorem length_topFeatures (w : List ℚ) (hw : w.length = 30) :
    (topFeatures w).length = 3 := by
  unfold topFeatures
  rw [List.length_map, length_topIndices w hw]

theorem topFeatures_mem_fieldNames (w : List ℚ) (hw : w.length = 30) :
    ∀ x ∈ topFeatures w, x ∈ fieldNames := by
  intro x hx
  obtain ⟨i, hi, rfl⟩ := List.mem_map.mp hx
  have hfn : fieldNames.length = 30 := rfl
  have hlt : i < fieldNames.length := by
    have h30 := mem_topIndices_lt w hi
    omega
  rw [List.getD_eq_getElem _ _ hlt]
  exact List.getElem_mem hlt

/-- C1: for every probability p returned by the classifier, the verdict
of /score-transaction is Low/Approve when p ≤ 0.40, Medium/Review when
0.40 < p ≤ 0.75, and High/Block when p > 0.75; in particular both
boundary values fall into the lower bucket. -/
theorem score_transaction_bucketing (p : ℚ) (tx : TransactionInput)
    (w : List ℚ) (t : ℕ) (s : Store) :
    (p ≤ 2/5 →
      (score_transaction tx (Except.ok p) w t s).1 =
        Except.ok { fraud_probability := pyRound 4 p, risk_level := "Low",
                    decision := "Approve", top_risk_indicators := topFeatures w }) ∧
    (2/5 < p → p ≤ 3/4 →
      (score_transaction tx (Except.ok p) w t s).1 =
        Except.ok { fraud_probability := pyRound 4 p, risk_level := "Medium",
                    decision := "Review", top_risk_indicators := topFeatures w }) ∧
    (3/4 < p →
      (score_transaction tx (Except.ok p) w t s).1 =
        Except.ok { fraud_probability := pyRound 4 p, risk_level := "High",
                    decision := "Block", top_risk_indicators := topFeatures w }) := by
  refine ⟨fun h => ?_, fun h1 h2 => ?_, fun h => ?_⟩ <;>
    · simp only [score_transaction]
      split_ifs <;> first | rfl | (exfalso; linarith)

/-- Witness for C1 at the two boundary probabilities 0.40 and 0.75 and
at an interior high probability 0.80. -/
theorem score_transaction_bucketing_witness :
    ((score_transaction txZero (Except.ok (2/5)) [] 0 []).1 =
      Except.ok { fraud_probability := pyRound 4 (2/5), risk_level := "Low",
                  decision := "Approve", top_risk_indicators := topFeatures [] }) ∧
    ((score_transaction txZero (Except.ok (3/4)) [] 0 []).1 =
      Except.ok { fraud_probability := pyRound 4 (3/4), risk_level := "Medium",
                  decision := "Review", top_risk_indicators := topFeatures [] }) ∧
    ((score_transaction txZero (Except.ok (4/5)) [] 0 []).1 =
      Except.ok { fraud_probability := pyRound 4 (4/5), risk_level := "High",
                  decision := "Block", top_risk_indicators := topFeatures [] }) :=
  ⟨(score_transaction_bucketing (2/5) txZero [] 0 []).1 (by norm_num),
   (score_transaction_bucketing (3/4) txZero [] 0 []).2.1 (by norm_num) (by norm_num),
   (score_transaction_bucketing (4/5) txZero [] 0 []).2.2 (by norm_num)⟩

/-- C2: top_risk_indicators always has length 3, contains only the 30
valid field names, lists the names of the 3 largest importance weights
in ascending weight order, and is a function of the weights alone: the
response's top_risk_indicators equals topFeatures w for every input
vector, probability, time and store. -/
theorem top_risk_indicators_spec (w : List ℚ) (hw : w.length = 30) :
    (topFeatures w).length = 3 ∧
    (∀ x ∈ topFeatures w, x ∈ fieldNames) ∧
    List.Sorted (· ≤ ·) ((topIndices w).map (fun i => w.getD i 0)) ∧
    (∀ i ∈ topIndices w, ∀ j, j < 30 → j ∉ topIndices w →
      w.getD j 0 ≤ w.getD i 0) ∧
    (∀ (tx : TransactionInput) (p : ℚ) (t : ℕ) (s : Store),
      (score_transaction tx (Except.ok p) w t s).1.map
          (fun resp => resp.top_risk_indicators) = Except.ok (topFeatures w)) := by
  refine ⟨length_topFeatures w hw, topFeatures_mem_fieldNames w hw,
    sorted_topWeights w, ?_, ?_⟩
  · intro i hi j hj hj2
    exact topIndices_dominant w i hi j (by rw [hw]; exact hj) hj2
  · intro tx p t s
    rfl

/-- Witness for C2 at a concrete 30-entry weight vector. -/
theorem top_risk_indicators_spec_witness :
    wExample.length = 30 ∧ (topFeatures wExample).length = 3 :=
  ⟨by decide, (top_risk_indicators_spec wExample (by decide)).1⟩

/-- C5: when the classifier invocation fails, /score-transaction
propagates the error (the request aborts as a server error) and the
store is unchanged: no record is persisted on this path. -/
theorem scoring_error_no_persist (tx : TransactionInput) (e : ScoringError)
    (w : List ℚ) (t : ℕ) (s : Store) :
    score_transaction tx (Except.error e) w t s = (Except.error e, s) := rfl

/-- C6: round-trip — after a successful /score-transaction call,
/transactions shows exactly one new record, appended at the end, whose
input equals the submitted vector and whose verdict fields equal the
fields of the response. -/
theorem score_roundtrip (tx : TransactionInput) (p : ℚ) (w : List ℚ)
    (t : ℕ) (s : Store) :
    ∃ resp rec,
      (score_transaction tx (Except.ok p) w t s).1 = Except.ok resp ∧
      get_transactions (score_transaction tx (Except.ok p) w t s).2
        = get_transactions s ++ [rec] ∧
      rec.input = tx ∧
      rec.fraud_probability = resp.fraud_probability ∧
      rec.risk_level = resp.risk_level ∧
      rec.decision = resp.decision ∧
      rec.top_risk_indicators = some resp.top_risk_indicators :=
  ⟨_, _, rfl, rfl, rfl, rfl, rfl, rfl, rfl⟩

/-- C9: the record persisted by /score-transaction carries the
top_risk_indicators field, while the record persisted by a background
loop iteration omits it — the two persistence paths write asymmetric
record schemas. -/
theorem persistence_schema_asymmetry (tx : TransactionInput) (p : ℚ)
    (w : List ℚ) (t : ℕ) (s : Store) (tx2 : TransactionInput) (p2 : ℚ)
    (t2 : ℕ) (s2 : Store) :
    ((score_transaction tx (Except.ok p) w t s).2.getLast?.map
        (fun r => r.top_risk_indicators)) = some (some (topFeatures w)) ∧
    ((auto_iteration tx2 p2 t2 s2).getLast?.map
        (fun r => r.top_risk_indicators)) = some none := by
  constructor <;> simp [score_transaction, auto_iteration]

/-- C10: for the same feature vector and the same classifier
probability, the background loop's iteration and the /score-transaction
endpoint persist identical rounded fraud_probability, risk_level and
decision: both paths embed the same evaluation function. -/
theorem paths_same_verdict (tx : TransactionInput) (p : ℚ) (w : List ℚ)
    (t t2 : ℕ) (s s2 : Store) :
    ((score_transaction tx (Except.ok p) w t s).2.getLast?.map
        (fun r => (r.fraud_probability, r.risk_level, r.decision)))
      = ((auto_iteration tx p t2 s2).getLast?.map
        (fun r => (r.fraud_probability, r.risk_level, r.decision))) := by
  simp [score_transaction, auto_iteration]

theorem reachable_fields (s : Store) (h : Reachable s) :
    ∀ r ∈ s,
      (r.risk_level = "High" ∨ r.risk_level = "Medium" ∨ r.risk_level = "Low") ∧
      (r.decision = "Approve" ∨ r.decision = "Block" ∨ r.decision = "Review") := by
  induction h with
  | nil => intro r hr; cases hr
  | api tx cr w t s hs ih =>
    cases cr with
    | error e => exact ih
    | ok p =>
      intro r hr
      simp only [score_transaction] at hr
      rcases List.mem_append.mp hr with h1 | h2
      · exact ih r h1
      · have h3 := List.mem_singleton.mp h2
        subst h3
        constructor <;> · dsimp only; split_ifs <;> simp
  | auto tx p t s hs ih =>
    intro r hr
    simp only [auto_iteration] at hr
    rcases List.mem_append.mp hr with h1 | h2
    · exact ih r h1
    · have h3 := List.mem_singleton.mp h2
      subst h3
      constructor <;> · dsimp only; split_ifs <;> simp

theorem countP_levels (s : Store)
    (h : ∀ r ∈ s, r.risk_level = "High" ∨ r.risk_level = "Medium"
      ∨ r.risk_level = "Low") :
    s.countP (fun r => r.risk_level == "High")
      + s.countP (fun r => r.risk_level == "Medium")
      + s.countP (fun r => r.risk_level == "Low") = s.length := by
  induction s with
  | nil => rfl
  | cons a l ih =>
    have hl : ∀ r ∈ l, r.risk_level = "High" ∨ r.risk_level = "Medium"
        ∨ r.risk_level = "Low" := fun r hr => h r (List.mem_cons_of_mem a hr)
    have ihl := ih hl
    rcases h a (List.mem_cons_self a l) with h1 | h1 | h1 <;>
      simp [List.countP_cons, h1] <;> omega

theorem countP_decisions (s : Store)
    (h : ∀ r ∈ s, r.decision = "Approve" ∨ r.decision = "Block"
      ∨ r.decision = "Review") :
    s.countP (fun r => r.decision == "Approve")
      + s.countP (fun r => r.decision == "Block")
      + s.countP (fun r => r.decision == "Review") = s.length := by
  induction s with
  | nil => rfl
  | cons a l ih =>
    have hl : ∀ r ∈ l, r.decision = "Approve" ∨ r.decision = "Block"
        ∨ r.decision = "Review" := fun r hr => h r (List.mem_cons_of_mem a hr)
    have ihl := ih hl
    rcases h a (List.mem_cons_self a l) with h1 | h1 | h1 <;>
      simp [List.countP_cons, h1] <;> omega

/-- C3: for every store state reachable by any sequence of insertions
performed by this system, the dashboard satisfies
high + medium + low = total_transactions = approved + blocked + review. -/
theorem dashboard_counts_consistent (s : Store) (h : Reachable s) :
    (dashboard_summary s).high + (dashboard_summary s).medium
        + (dashboard_summary s).low = (dashboard_summary s).total_transactions ∧
      (dashboard_summary s).total_transactions
        = (dashboard_summary s).approved + (dashboard_summary s).blocked
            + (dashboard_summary s).review := by
  have hwf := reachable_fields s h
  constructor
  · exact countP_levels s (fun r hr => (hwf r hr).1)
  · exact (countP_decisions s (fun r hr => (hwf r hr).2)).symm

/-- Witness for C3 at a concrete reachable one-record store. -/
theorem dashboard_counts_consistent_witness :
    (dashboard_summary (score_transaction txZero (Except.ok (9/10)) [] 0 []).2).high
        + (dashboard_summary (score_transaction txZero (Except.ok (9/10)) [] 0 []).2).medium
        + (dashboard_summary (score_transaction txZero (Except.ok (9/10)) [] 0 []).2).low
      = (dashboard_summary
          (score_transaction txZero (Except.ok (9/10)) [] 0 []).2).total_transactions ∧
    (dashboard_summary
        (score_transaction txZero (Except.ok (9/10)) [] 0 []).2).total_transactions
      = (dashboard_summary (score_transaction txZero (Except.ok (9/10)) [] 0 []).2).approved
        + (dashboard_summary (score_transaction txZero (Except.ok (9/10)) [] 0 []).2).blocked
        + (dashboard_summary (score_transaction txZero (Except.ok (9/10)) [] 0 []).2).review :=
  dashboard_counts_consistent _
    (Reachable.api txZero (Except.ok (9/10)) [] 0 [] Reachable.nil)

/-- C7: the dashboard's approval_rate_percent is 0 when
total_transactions = 0, and otherwise equals
round(approved / total * 100, 2) with Python rounding. -/
theorem approval_rate_spec (s : Store) :
    ((dashboard_summary s).total_transactions = 0 →
        (dashboard_summary s).approval_rate_percent = 0) ∧
      (0 < (dashboard_summary s).total_transactions →
        (dashboard_summary s).approval_rate_percent
          = pyRound 2 (((dashboard_summary s).approved : ℚ)
              / ((dashboard_summary s).total_transactions : ℚ) * 100)) := by
  constructor
  · intro h0
    simp only [dashboard_summary] at h0 ⊢
    rw [if_neg (by omega)]
  · intro hpos
    simp only [dashboard_summary] at hpos ⊢
    rw [if_pos hpos]

/-- Witness for C7 at the empty store and at a concrete one-record
store. -/
theorem approval_rate_spec_witness :
    (dashboard_summary []).approval_rate_percent = 0 ∧
      (dashboard_summary
          (score_transaction txZero (Except.ok 0) [] 0 []).2).approval_rate_percent
        = pyRound 2
            (((dashboard_summary (score_transaction txZero (Except.ok 0) [] 0 []).2).approved : ℚ)
              / ((dashboard_summary
                  (score_transaction txZero (Except.ok 0) [] 0 []).2).total_transactions : ℚ)
              * 100) :=
  ⟨(approval_rate_spec []).1 rfl, (approval_rate_spec _).2 (by decide)⟩

theorem pyUniform_mem (a b u : ℚ) (hab : a ≤ b) (h0 : 0 ≤ u) (h1 : u < 1) :
    a ≤ pyUniform a b u ∧ pyUniform a b u ≤ b := by
  unfold pyUniform
  constructor
  · nlinarith
  · nlinarith

/-- C8: every feature vector produced by the generator satisfies the
range constraints — Time in [0, 100000], each Vi in [-5, 5], Amount in
[1, 10000] — whenever the underlying random() draws lie in [0, 1). -/
theorem generator_ranges (u : Fin 30 → ℚ) (h : ∀ i, 0 ≤ u i ∧ u i < 1) :
    inRanges (generate_random_transaction u) :=
  ⟨pyUniform_mem 0 100000 (u 0) (by norm_num) (h 0).1 (h 0).2,
   pyUniform_mem (-5) 5 (u 1) (by norm_num) (h 1).1 (h 1).2,
   pyUniform_mem (-5) 5 (u 2) (by norm_num) (h 2).1 (h 2).2,
   pyUniform_mem (-5) 5 (u 3) (by norm_num) (h 3).1 (h 3).2,
   pyUniform_mem (-5) 5 (u 4) (by norm_num) (h 4).1 (h 4).2,
   pyUniform_mem (-5) 5 (u 5) (by norm_num) (h 5).1 (h 5).2,
   pyUniform_mem (-5) 5 (u 6) (by norm_num) (h 6).1 (h 6).2,
   pyUniform_mem (-5) 5 (u 7) (by norm_num) (h 7).1 (h 7).2,
   pyUniform_mem (-5) 5 (u 8) (by norm_num) (h 8).1 (h 8).2,
   pyUniform_mem (-5) 5 (u 9) (by norm_num) (h 9).1 (h 9).2,
   pyUniform_mem (-5) 5 (u 10) (by norm_num) (h 10).1 (h 10).2,
   pyUniform_mem (-5) 5 (u 11) (by norm_num) (h 11).1 (h 11).2,
   pyUniform_mem (-5) 5 (u 12) (by norm_num) (h 12).1 (h 12).2,
   pyUniform_mem (-5) 5 (u 13) (by norm_num) (h 13).1 (h 13).2,
   pyUniform_mem (-5) 5 (u 14) (by norm_num) (h 14).1 (h 14).2,
   pyUniform_mem (-5) 5 (u 15) (by norm_num) (h 15).1 (h 15).2,
   pyUniform_mem (-5) 5 (u 16) (by norm_num) (h 16).1 (h 16).2,
   pyUniform_mem (-5) 5 (u 17) (by norm_num) (h 17).1 (h 17).2,
   pyUniform_mem (-5) 5 (u 18) (by norm_num) (h 18).1 (h 18).2,
   pyUniform_mem (-5) 5 (u 19) (by norm_num) (h 19).1 (h 19).2,
   pyUniform_mem (-5) 5 (u 20) (by norm_num) (h 20).1 (h 20).2,
   pyUniform_mem (-5) 5 (u 21) (by norm_num) (h 21).1 (h 21).2,
   pyUniform_mem (-5) 5 (u 22) (by norm_num) (h 22).1 (h 22).2,
   pyUniform_mem (-5) 5 (u 23) (by norm_num) (h 23).1 (h 23).2,
   pyUniform_mem (-5) 5 (u 24) (by norm_num) (h 24).1 (h 24).2,
   pyUniform_mem (-5) 5 (u 25) (by norm_num) (h 25).1 (h 25).2,
   pyUniform_mem (-5) 5 (u 26) (by norm_num) (h 26).1 (h 26).2,
   pyUniform_mem (-5) 5 (u 27) (by norm_num) (h 27).1 (h 27).2,
   pyUniform_mem (-5) 5 (u 28) (by norm_num) (h 28).1 (h 28).2,
   pyUniform_mem 1 10000 (u 29) (by norm_num) (h 29).1 (h 29).2⟩

/-- Witness for C8 with every random draw equal to 1/2. -/
theorem generator_ranges_witness :
    inRanges (generate_random_transaction fun _ => 1/2) :=
  generator_ranges (fun _ => 1/2) (fun _ => ⟨by norm_num, by norm_num⟩)

/-- C4: the claim that a single iteration's failure does not crash the
background loop FAILS on the code — the while-True body has no
exception guard.  With a forced classifier failure on the first
iteration followed by an iteration whose classifier call would succeed,
the loop persists nothing at all (the task dies), whereas running the
successful iteration alone persists a record. -/
theorem auto_loop_halts_on_failure :
    auto_loop [(txZero, Except.error { msg := "classifier failure" }, 0),
        (txZero, Except.ok (9/10), 5)] [] = []
      ∧ auto_loop [(txZero, Except.ok (9/10), 5)] [] ≠ [] := by
  constructor
  · rfl
  · simp [auto_loop, auto_iteration]

end FraudRisk
